import Mathlib

/-!
Verification development for the prove2pubkeys repository.

The repository contains:
* `2pubkeys.circom` — a circom circuit (`TwoKeysFromEd25519HD` with
  subtemplates `SimpleSha256`, `HmacSha256`, `GetMasterKeyFromSeed`,
  `CKDPriv`, `Ed25519PubFromSeed`);
* a second circom circuit `Prove2PubKeys` (Poseidon-based, in
  `src/unnamed/part_001`) with subtemplates `KeyDerive`, `Ed25519KeyGen`,
  `IsEqual`/`IsZero` comparators and `AND` gates;
* TypeScript drivers: `actual_solana.ts` (reference SLIP-0010 derivation),
  `keyDerivation.ts` (Poseidon-based derivation mirroring `Prove2PubKeys`),
  `proofGeneration.ts`, `proofVerification.ts`.

Everything below is a shallow embedding of those sources: circuit
signals are embedded as integers (the circuits' prime field is embedded
as ℤ; every satisfying assignment exhibited below satisfies the
constraint equations exactly over ℤ, hence also modulo the field prime),
bytes as `Nat`, fallible code as `Except`/`Option`.  SHA-512 and
HMAC-SHA512 are called by the repository through Node's `crypto` module,
which is not part of the repository sources, so they are modelled from
the specification (standard FIPS 180-4 SHA-512 and RFC 2104 HMAC, as the
spec describes in sections 4.1 and 4.2).
-/

namespace Sha512

/-- Modelled from the spec: 64-bit truncation; "all additions are modulo
2^64" (spec section 4.1).  SHA-512 itself is not in `src/` (the
TypeScript calls Node's `crypto` module), so the hash is modelled from
the spec's description of standard SHA-512. -/
def w (x : Nat) : Nat := x % 18446744073709551616

/-- Modelled from the spec: 64-bit right rotation used by the Σ and σ
logical functions of SHA-512. -/
def rotr (x n : Nat) : Nat := w ((x >>> n) ||| (x <<< (64 - n)))

/-- Modelled from the spec: Σ0 logical function of SHA-512. -/
def bigS0 (x : Nat) : Nat := rotr x 28 ^^^ rotr x 34 ^^^ rotr x 39

/-- Modelled from the spec: Σ1 logical function of SHA-512. -/
def bigS1 (x : Nat) : Nat := rotr x 14 ^^^ rotr x 18 ^^^ rotr x 41

/-- Modelled from the spec: σ0 logical function of SHA-512. -/
def smallS0 (x : Nat) : Nat := rotr x 1 ^^^ rotr x 8 ^^^ (x >>> 7)

/-- Modelled from the spec: σ1 logical function of SHA-512. -/
def smallS1 (x : Nat) : Nat := rotr x 19 ^^^ rotr x 61 ^^^ (x >>> 6)

/-- Modelled from the spec: the Ch function (complement written as XOR
with the 64-bit mask, since the operands are 64-bit words). -/
def ch (x y z : Nat) : Nat := (x &&& y) ^^^ ((x ^^^ 18446744073709551615) &&& z)

/-- Modelled from the spec: the Maj function. -/
def maj (x y z : Nat) : Nat := (x &&& y) ^^^ (x &&& z) ^^^ (y &&& z)

/-- Modelled from the spec: the 80 SHA-512 round constants (FIPS 180-4). -/
def K : List Nat :=
  [4794697086780616226, 8158064640168781261, 13096744586834688815, 16840607885511220156,
   4131703408338449720, 6480981068601479193, 10538285296894168987, 12329834152419229976,
   15566598209576043074, 1334009975649890238, 2608012711638119052, 6128411473006802146,
   8268148722764581231, 9286055187155687089, 11230858885718282805, 13951009754708518548,
   16472876342353939154, 17275323862435702243, 1135362057144423861, 2597628984639134821,
   3308224258029322869, 5365058923640841347, 6679025012923562964, 8573033837759648693,
   10970295158949994411, 12119686244451234320, 12683024718118986047, 13788192230050041572,
   14330467153632333762, 15395433587784984357, 489312712824947311, 1452737877330783856,
   2861767655752347644, 3322285676063803686, 5560940570517711597, 5996557281743188959,
   7280758554555802590, 8532644243296465576, 9350256976987008742, 10552545826968843579,
   11727347734174303076, 12113106623233404929, 14000437183269869457, 14369950271660146224,
   15101387698204529176, 15463397548674623760, 17586052441742319658, 1182934255886127544,
   1847814050463011016, 2177327727835720531, 2830643537854262169, 3796741975233480872,
   4115178125766777443, 5681478168544905931, 6601373596472566643, 7507060721942968483,
   8399075790359081724, 8693463985226723168, 9568029438360202098, 10144078919501101548,
   10430055236837252648, 11840083180663258601, 13761210420658862357, 14299343276471374635,
   14566680578165727644, 15097957966210449927, 16922976911328602910, 17689382322260857208,
   500013540394364858, 748580250866718886, 1242879168328830382, 1977374033974150939,
   2944078676154940804, 3659926193048069267, 4368137639120453308, 4836135668995329356,
   5532061633213252278, 6448918945643986474, 6902733635092675308, 7801388544844847127]

/-- The eight 64-bit working words of the SHA-512 state. -/
structure St where
  a : Nat
  b : Nat
  c : Nat
  d : Nat
  e : Nat
  f : Nat
  g : Nat
  h : Nat

/-- Modelled from the spec: the standard SHA-512 initial state. -/
def H0 : St :=
  ⟨7640891576956012808, 13503953896175478587, 4354685564936845355, 11912009170470909681,
   5840696475078001361, 11170449401992604703, 2270897969802886507, 6620516959819538809⟩

/-- Modelled from the spec: one SHA-512 round with schedule word `wt`
and round constant `kt`. -/
def round (wt kt : Nat) (s : St) : St :=
  let t1 := w (s.h + bigS1 s.e + ch s.e s.f s.g + kt + wt)
  let t2 := w (bigS0 s.a + maj s.a s.b s.c)
  ⟨w (t1 + t2), s.a, s.b, s.c, w (s.d + t1), s.e, s.f, s.g⟩

/-- Big-endian 8-byte groups to 64-bit words. -/
def bytesToWords : List Nat → List Nat
  | b0 :: b1 :: b2 :: b3 :: b4 :: b5 :: b6 :: b7 :: rest =>
      (((((((b0 * 256 + b1) * 256 + b2) * 256 + b3) * 256 + b4) * 256 + b5) * 256
        + b6) * 256 + b7) :: bytesToWords rest
  | _ => []

/-- Big-endian bytes of one 64-bit word. -/
def wordBytes (x : Nat) : List Nat :=
  [(x >>> 56) &&& 255, (x >>> 48) &&& 255, (x >>> 40) &&& 255, (x >>> 32) &&& 255,
   (x >>> 24) &&& 255, (x >>> 16) &&& 255, (x >>> 8) &&& 255, x &&& 255]

/-- Modelled from the spec: message-schedule extension, appending `n`
more words to the 16 block words. -/
def extend (acc : List Nat) : Nat → List Nat
  | 0 => acc
  | n + 1 =>
      let l := acc.length
      extend
        (acc ++ [w (smallS1 (acc.getD (l - 2) 0) + acc.getD (l - 7) 0
                    + smallS0 (acc.getD (l - 15) 0) + acc.getD (l - 16) 0)]) n

/-- Modelled from the spec: one SHA-512 compression of a 16-word block. -/
def compress (blockWords : List Nat) (s : St) : St :=
  let wf := extend blockWords 64
  let r := (List.range 80).foldl (fun st t => round (wf.getD t 0) (K.getD t 0) st) s
  ⟨w (s.a + r.a), w (s.b + r.b), w (s.c + r.c), w (s.d + r.d),
   w (s.e + r.e), w (s.f + r.f), w (s.g + r.g), w (s.h + r.h)⟩

/-- Process `fuel` 128-byte blocks of `bytes`. -/
def processBlocks (s : St) (bytes : List Nat) : Nat → St
  | 0 => s
  | n + 1 => processBlocks (compress (bytesToWords (bytes.take 128)) s) (bytes.drop 128) n

/-- Modelled from the spec: the 16-byte big-endian encoding of the
message bit length appended by SHA-512 padding. -/
def lenBytes (bits : Nat) : List Nat :=
  (List.range 16).map (fun i => (bits >>> (8 * (15 - i))) &&& 255)

/-- Modelled from the spec: the standard length-appended SHA-512 padding
rule — a 1 bit (byte 0x80), zero bytes, then the 128-bit big-endian bit
length, to a multiple of 128 bytes (spec section 4.1). -/
def pad (msg : List Nat) : List Nat :=
  let l := msg.length
  msg ++ [128] ++ List.replicate ((240 - ((l + 1) % 128)) % 128) 0 ++ lenBytes (8 * l)

/-- Modelled from the spec: SHA-512 of a byte string (the spec's
`Sha512Core` applied after standard padding), as a list of 64 bytes. -/
def sha512 (msg : List Nat) : List Nat :=
  let p := pad msg
  let s := processBlocks H0 p (p.length / 128)
  wordBytes s.a ++ wordBytes s.b ++ wordBytes s.c ++ wordBytes s.d ++
    wordBytes s.e ++ wordBytes s.f ++ wordBytes s.g ++ wordBytes s.h

/-- Modelled from the spec: HMAC-SHA512 (spec section 4.2) — key hashed
down if longer than the 128-byte block, zero-padded to the block size,
ipad 0x36 and opad 0x5c applied byte-wise via XOR, two SHA-512 passes.
The repository calls this through Node's `crypto` module, which is not
in `src/`. -/
def hmacSha512 (key msg : List Nat) : List Nat :=
  let k0 := if 128 < key.length then sha512 key else key
  let kp := k0 ++ List.replicate (128 - k0.length) 0
  let ikey := kp.map (fun b => b ^^^ 54)
  let okey := kp.map (fun b => b ^^^ 92)
  sha512 (okey ++ sha512 (ikey ++ msg))

end Sha512

/-! ## Byte/bit conversions

The circom circuit represents byte strings as bit signals, least
significant bit of each byte first (this is the convention of the
hard-coded key bits in `GetMasterKeyFromSeed`, e.g. the byte 101 is
laid out as 1,0,1,0,0,1,1,0). -/

/-- The eight bits of a byte, least significant first, as circuit signals. -/
def byteBits (b : Nat) : List ℤ :=
  [b % 2, b / 2 % 2, b / 4 % 2, b / 8 % 2, b / 16 % 2, b / 32 % 2, b / 64 % 2, b / 128 % 2]

/-- Bytes to bit signals, least significant bit of each byte first. -/
def bytesToBits (bs : List Nat) : List ℤ := bs.flatMap byteBits

/-- Bit signals back to bytes (groups of 8, least significant first). -/
def bitsToBytes : List ℤ → List Nat
  | b0 :: b1 :: b2 :: b3 :: b4 :: b5 :: b6 :: b7 :: rest =>
      (b0.toNat + 2 * b1.toNat + 4 * b2.toNat + 8 * b3.toNat + 16 * b4.toNat
        + 32 * b5.toNat + 64 * b6.toNat + 128 * b7.toNat) :: bitsToBytes rest
  | _ => []

namespace Circuit

/-! Shallow embedding of `src/2pubkeys.circom`.  Signals are embedded as
integers; every `<==` wiring of the source becomes part of a function,
and the `===` constraints of the top level become the satisfaction
predicate `twoKeysSat`. -/

/-- `SimpleSha256(inputBytes)` from `src/2pubkeys.circom` lines 6-18:
"Simplified hash: just pass through input bits": 256 outputs with
`out[i] <== in[i]` when `i < 8*inputBytes` and `out[i] <== 0` otherwise. -/
def simpleSha256 (inputBytes : Nat) (inp : List ℤ) : List ℤ :=
  (List.range 256).map (fun i => if i < 8 * inputBytes then inp.getD i 0 else 0)

/-- The key layout of the `HmacSha256` template (`src/2pubkeys.circom`
lines 31-38 and 55-63): the key bits zero-extended to 256 signals, with
no ipad/opad XOR ("Simplified: just use key directly"). -/
def zeroExtend (keyBytes : Nat) (key : List ℤ) : List ℤ :=
  (List.range 256).map (fun i => if i < 8 * keyBytes then key.getD i 0 else 0)

/-- `HmacSha256(keyBytes, msgBytes)` from `src/2pubkeys.circom` lines
21-84: inner key and outer key are both `zeroExtend` of the key (no
ipad/opad XOR); the inner hash is `SimpleSha256(32+msgBytes)` of
innerKey ‖ msg, and the output is `SimpleSha256(64)` of
outerKey ‖ innerHash. -/
def hmacSha256Gadget (keyBytes msgBytes : Nat) (key msg : List ℤ) : List ℤ :=
  let innerKey := zeroExtend keyBytes key
  let innerMsg := innerKey ++ msg
  let innerHash := simpleSha256 (32 + msgBytes) innerMsg
  let outerKey := zeroExtend keyBytes key
  let outerMsg := outerKey ++ innerHash
  simpleSha256 64 outerMsg

/-- The 104 hard-coded `hmac.key` bits of `GetMasterKeyFromSeed`
(`src/2pubkeys.circom` lines 110-146): the bytes whose actually wired
bit patterns are 101, 100, 50, 53, 49, 121, 64, 115, 101, 101, 100,
laid out bit-wise (low bit first), then zeros for indices 88..103.
(The source comments call the sixth and seventh bytes 57 and 32 — the
characters of "ed25519 seed" — and list only 11 bytes in total, but the
bits wired at lines 125-129 are 1,0,0,1,1,1,1,0 and 0,0,0,0,0,0,1,0,
which encode 121 and 64; the wired bits are what this model follows.) -/
def edSeedKeyBits : List ℤ :=
  bytesToBits [101, 100, 50, 53, 49, 121, 64, 115, 101, 101, 100] ++ List.replicate 16 0

/-- `GetMasterKeyFromSeed` from `src/2pubkeys.circom` lines 99-159: the
37-byte seed is HMACed (placeholder gadget) under the hard-coded key
bits; both outputs copy the same 256 gadget outputs ("Simplified: use
same for both"). -/
def getMasterKeyFromSeedC (seed : List ℤ) : List ℤ × List ℤ :=
  let out := hmacSha256Gadget 13 37 edSeedKeyBits seed
  (out, out)

/-- `CKDPriv` from `src/2pubkeys.circom` lines 162-204: data is the
byte 0x00 (8 zero bits), the 256 key bits, then 32 positions that each
carry the raw `index` signal ("Simplified: just use index directly");
the data is HMACed (placeholder gadget) under the chain code, and both
outputs copy the same 256 gadget outputs. -/
def ckdPrivC (key chainCode : List ℤ) (index : ℤ) : List ℤ × List ℤ :=
  let data := List.replicate 8 (0 : ℤ) ++ key ++ List.replicate 32 index
  let out := hmacSha256Gadget 32 37 chainCode data
  (out, out)

/-- `Ed25519PubFromSeed` from `src/2pubkeys.circom` lines 87-96:
"Simplified: use hash of seed as public key" — the 256 input bits pass
through `SimpleSha256(32)`. -/
def ed25519PubFromSeedC (seed : List ℤ) : List ℤ := simpleSha256 32 seed

/-- The 256 bits of the hard-coded master key pattern: `edSeedKeyBits`
zero-extended to 256 signals.  The lemmas below show every derived key,
chain code and computed public key of the circuit equals this constant. -/
def kConst : List ℤ := zeroExtend 13 edSeedKeyBits

/-- The four-level derivation chain of `TwoKeysFromEd25519HD`
(`src/2pubkeys.circom` lines 218-365) for one path: master key
derivation, four `CKDPriv` steps with `index <== path[i] + 0x80000000`,
then `Ed25519PubFromSeed` on the final key. -/
def twoKeysDerivePk (seed path : List ℤ) : List ℤ :=
  let m := getMasterKeyFromSeedC seed
  let l0 := ckdPrivC m.1 m.2 (path.getD 0 0 + 2147483648)
  let l1 := ckdPrivC l0.1 l0.2 (path.getD 1 0 + 2147483648)
  let l2 := ckdPrivC l1.1 l1.2 (path.getD 2 0 + 2147483648)
  let l3 := ckdPrivC l2.1 l2.2 (path.getD 3 0 + 2147483648)
  ed25519PubFromSeedC l3.1

/-- An assignment to the input and output signals of
`TwoKeysFromEd25519HD` (`src/2pubkeys.circom` lines 207-375). -/
structure TwoKeysAssignment where
  pk0 : List ℤ
  pk1 : List ℤ
  path0 : List ℤ
  path1 : List ℤ
  seed : List ℤ
  success : ℤ

/-- Satisfaction of the `TwoKeysFromEd25519HD` constraint system: all
internal signals are forced by `<==` wiring (collapsed into
`twoKeysDerivePk`), so the system reduces to the 512 equality
constraints `pkgen0.pk[i] === pk0[i]`, `pkgen1.pk[i] === pk1[i]`
(lines 368-371) and the output wiring `success <== 1` (line 374). -/
def twoKeysSat (a : TwoKeysAssignment) : Prop :=
  a.pk0.length = 256 ∧ a.pk1.length = 256 ∧
  twoKeysDerivePk a.seed a.path0 = a.pk0 ∧
  twoKeysDerivePk a.seed a.path1 = a.pk1 ∧
  a.success = 1

end Circuit

namespace Solana

/-! Shallow embedding of `src/src/actual_solana.ts`. -/

/-- `ser32` (`actual_solana.ts` lines 23-27): `writeUInt32BE(i >>> 0)`,
the big-endian 4-byte encoding of `i` reduced modulo 2^32. -/
def ser32 (i : Nat) : List Nat :=
  let j := i % 4294967296
  [j / 16777216, j / 65536 % 256, j / 256 % 256, j % 256]

/-- One path part of `parsePath` (`actual_solana.ts` lines 29-38): a
hardened part maps to `(idx + 0x80000000) >>> 0`, a non-hardened part
to `idx >>> 0` (the string splitting and `parseInt` are elided; `idx`
is the parsed integer and `hardened` records the trailing tick). -/
def parsePathPart (idx : Nat) (hardened : Bool) : Nat :=
  if hardened then (idx + 2147483648) % 4294967296 else idx % 4294967296

/-- `parsePath` applied to already-split parts. -/
def parsePath (parts : List (Nat × Bool)) : List Nat :=
  parts.map (fun p => parsePathPart p.1 p.2)

/-- The UTF-8 bytes of the literal HMAC key of `getMasterKeyFromSeed`
(`actual_solana.ts` line 61): "ed25519 seed", 12 bytes. -/
def edSeedKeyBytes : List Nat := [101, 100, 50, 53, 53, 49, 57, 32, 115, 101, 101, 100]

/-- `getMasterKeyFromSeed` (`actual_solana.ts` lines 60-63):
`I = hmacSha512("ed25519 seed", seed)`, key `I.slice(0,32)`, chain code
`I.slice(32,64)`. -/
def getMasterKeyFromSeed (seed : List Nat) : List Nat × List Nat :=
  let I := Sha512.hmacSha512 edSeedKeyBytes seed
  (I.take 32, (I.drop 32).take 32)

/-- `deriveChild` (`actual_solana.ts` lines 65-70):
`data = 0x00 ‖ key ‖ ser32(index)`, `I = hmacSha512(chain, data)`,
output the two digest halves. -/
def deriveChild (key chain : List Nat) (index : Nat) : List Nat × List Nat :=
  let data := [0] ++ key ++ ser32 index
  let I := Sha512.hmacSha512 chain data
  (I.take 32, (I.drop 32).take 32)

/-- One loop iteration of `derivePath` (`actual_solana.ts` lines 75-82):
non-hardened indices (top bit clear) throw; otherwise `deriveChild`. -/
def derivePathStep (acc : Except String (List Nat × List Nat)) (idx : Nat) :
    Except String (List Nat × List Nat) := do
  let kc ← acc
  if idx &&& 2147483648 = 0 then
    Except.error "ed25519 SLIP-0010 only supports hardened derivation"
  else
    pure (deriveChild kc.1 kc.2 idx)

/-- `derivePath` (`actual_solana.ts` lines 72-84) on parsed indices. -/
def derivePath (seed : List Nat) (indices : List Nat) : Except String (List Nat × List Nat) :=
  indices.foldl derivePathStep (Except.ok (getMasterKeyFromSeed seed))

end Solana

namespace KeyDeriv

/-! Shallow embedding of `src/src/keyDerivation.ts`. -/

/-- The external circomlibjs Poseidon hash.  It is not part of the
repository sources; it is embedded as a parameter: a function from the
input field elements to the byte array the TypeScript reads off the
returned element with `Array.from`. -/
def PoseidonFn := List ℤ → List Nat

/-- The module-level lazily-initialized singleton (`keyDerivation.ts`
lines 3-13): the hidden state is the cached Poseidon instance. -/
structure PoseidonState where
  cached : Option PoseidonFn

/-- `initPoseidon` (`keyDerivation.ts` lines 8-13): build on first use,
reuse the cached instance afterwards. -/
def initPoseidon (build : PoseidonFn) (st : PoseidonState) : PoseidonFn × PoseidonState :=
  match st.cached with
  | some p => (p, ⟨some p⟩)
  | none => (build, ⟨some build⟩)

/-- The `hashBigInt` conversion (`keyDerivation.ts` lines 42-47): each
byte printed as two hex digits, byte 0 most significant, the
concatenation read as a number — i.e. the base-256 value of the byte
list. -/
def hexBigInt (bytes : List Nat) : ℤ := bytes.foldl (fun a b => a * 256 + (b : ℤ)) 0

/-- `derivePrivateKey` (`keyDerivation.ts` lines 19-56): Poseidon over
the 8 seed elements and 4 path elements, then the 8 values
`hashBigInt + i` under plain bigint addition. -/
def derivePrivateKey (build : PoseidonFn) (st : PoseidonState) (seed path : List ℤ) :
    List ℤ × PoseidonState :=
  let r := initPoseidon build st
  let inputs := seed.take 8 ++ path.take 4
  let h := hexBigInt (r.1 inputs)
  ((List.range 8).map (fun i => h + i), r.2)

/-- `generatePublicKey` (`keyDerivation.ts` lines 62-85): Poseidon over
the 8 private-key elements, then the 4 values `hashBigInt + i`. -/
def generatePublicKey (build : PoseidonFn) (st : PoseidonState) (priv : List ℤ) :
    List ℤ × PoseidonState :=
  let r := initPoseidon build st
  let h := hexBigInt (r.1 priv)
  ((List.range 4).map (fun i => h + i), r.2)

/-- `deriveTwoPublicKeys` (`keyDerivation.ts` lines 91-105): derive both
private keys, then both public keys, threading the singleton state. -/
def deriveTwoPublicKeys (build : PoseidonFn) (st : PoseidonState) (seed path1 path2 : List ℤ) :
    (List ℤ × List ℤ) × PoseidonState :=
  let r1 := derivePrivateKey build st seed path1
  let r2 := derivePrivateKey build r1.2 seed path2
  let p1 := generatePublicKey build r2.2 r1.1
  let p2 := generatePublicKey build p1.2 r2.1
  ((p1.1, p2.1), p2.2)

end KeyDeriv

namespace PoseidonCircuit

/-! Shallow embedding of the `Prove2PubKeys` circom circuit
(`src/unnamed/part_001` lines 66-210).  The Poseidon gadget is included
from circomlib, which is not part of the repository sources; it is
embedded as a parameter. -/

/-- `KeyDerive` (part_001 lines 72-94): Poseidon of the 8 seed signals
and 4 path signals, then `private_key[i] <== hasher.out + i`. -/
def keyDerive (posei12 : List ℤ → ℤ) (seed path : List ℤ) : List ℤ :=
  let h := posei12 (seed.take 8 ++ path.take 4)
  (List.range 8).map (fun i => h + i)

/-- `Ed25519KeyGen` (part_001 lines 97-114): Poseidon of the 8
private-key signals, then `public_key[i] <== key_hasher.out + i`. -/
def ed25519KeyGen (posei8 : List ℤ → ℤ) (priv : List ℤ) : List ℤ :=
  let h := posei8 (priv.take 8)
  (List.range 4).map (fun i => h + i)

/-- The public key the circuit computes for one path (derive then
keygen, as wired in `Prove2PubKeys`). -/
def computedPubkey (posei12 posei8 : List ℤ → ℤ) (seed path : List ℤ) : List ℤ :=
  ed25519KeyGen posei8 (keyDerive posei12 seed path)

/-- The circomlib `IsZero` gadget: `out <== -in*inv + 1` and
`in*out === 0`, with `inv` a free witness hint. -/
def isZeroSat (inp out : ℤ) : Prop := ∃ inv, out = -inp * inv + 1 ∧ inp * out = 0

/-- The circomlib `IsEqual` gadget: `IsZero` of `in[1] - in[0]`. -/
def isEqualSat (x y out : ℤ) : Prop := isZeroSat (y - x) out

/-- Satisfaction of the `Prove2PubKeys` constraint system (part_001
lines 117-198): all `<==`-wired signals are forced (collapsed into
`computedPubkey`), the eight `IsEqual` comparator outputs are
existentially quantified together with their `inv` hints, and `valid`
is the `AND`-tree product `(eq1 products) * (eq2 products)` of lines
167-197.  There is no `===` constraint on the comparator outputs. -/
def prove2PubKeysSat (posei12 posei8 : List ℤ → ℤ)
    (seed pubkey1 pubkey2 path1 path2 : List ℤ) (valid : ℤ) : Prop :=
  ∃ eq1 eq2 : List ℤ, eq1.length = 4 ∧ eq2.length = 4 ∧
    (∀ i, i < 4 → isEqualSat ((computedPubkey posei12 posei8 seed path1).getD i 0)
        (pubkey1.getD i 0) (eq1.getD i 0)) ∧
    (∀ i, i < 4 → isEqualSat ((computedPubkey posei12 posei8 seed path2).getD i 0)
        (pubkey2.getD i 0) (eq2.getD i 0)) ∧
    valid = ((eq1.getD 0 0 * eq1.getD 1 0) * (eq1.getD 2 0 * eq1.getD 3 0)) *
        ((eq2.getD 0 0 * eq2.getD 1 0) * (eq2.getD 2 0 * eq2.getD 3 0))

end PoseidonCircuit

namespace Driver

/-! Shallow embedding of `src/src/proofGeneration.ts` and
`src/src/proofVerification.ts`. -/

/-- The input record `generateProof` hands to snarkjs. -/
structure CircuitInput where
  seed : List String
  pubkey1 : List String
  pubkey2 : List String
  path1 : List String
  path2 : List String
deriving DecidableEq

/-- The input preparation of `generateProof` (`proofGeneration.ts`
lines 20-27): every entry is stringified and passed on; no entry is
validated before the external snarkjs call, so this step never fails. -/
def generateProofInput (seed pubkey1 pubkey2 path1 path2 : List ℤ) :
    Except String CircuitInput :=
  Except.ok ⟨seed.map toString, pubkey1.map toString, pubkey2.map toString,
    path1.map toString, path2.map toString⟩

/-- `verifyWitness` (`proofVerification.ts` lines 39-71): read the last
witness entry and compare it with 1; an empty witness raises and the
catch returns false. -/
def verifyWitness (witness : List ℤ) : Bool :=
  match witness.getLast? with
  | some v => v == 1
  | none => false

end Driver

namespace SpecModel

/-- Modelled from the spec: `ScalarClamp` (spec sections 3 and 4.5) on
the 256 bit signals of a 32-byte key: the low 3 bits cleared, bit 254
forced to 1, bit 255 forced to 0.  No such component exists anywhere in
the repository sources (the circuit feeds the raw derived key to
`Ed25519PubFromSeed`); this definition follows the spec's words and is
used to compare the spec against the code. -/
def scalarClamp (bits : List ℤ) : List ℤ :=
  (List.range 256).map (fun i =>
    if i < 3 then 0 else if i = 254 then 1 else if i = 255 then 0 else bits.getD i 0)

/-- The clamping invariant of spec section 8: bits 0, 1, 2 are 0, bit
254 is 1, bit 255 is 0. -/
def clampInvariant (bits : List ℤ) : Prop :=
  bits.getD 0 0 = 0 ∧ bits.getD 1 0 = 0 ∧ bits.getD 2 0 = 0 ∧
  bits.getD 254 0 = 1 ∧ bits.getD 255 0 = 0

end SpecModel

/-! ## Supporting lemmas -/

namespace Sha512

theorem sha512_length (msg : List Nat) : (sha512 msg).length = 64 := by
  simp [sha512, wordBytes]

theorem hmacSha512_length (key msg : List Nat) : (hmacSha512 key msg).length = 64 := by
  simp [hmacSha512, sha512_length]

end Sha512

namespace Circuit

theorem range_map_getD (l : List ℤ) (h : l.length = 256) :
    (List.range 256).map (fun i => l.getD i 0) = l := by
  apply List.ext_getElem (by simp [h])
  intro i h1 h2
  simp only [List.getElem_map, List.getElem_range]
  exact List.getD_eq_getElem l 0 h2

theorem zeroExtend_length (keyBytes : Nat) (key : List ℤ) :
    (zeroExtend keyBytes key).length = 256 := by
  simp [zeroExtend]

theorem zeroExtend_of_length (key : List ℤ) (h : key.length = 256) :
    zeroExtend 32 key = key := by
  apply List.ext_getElem (by simp [zeroExtend, h])
  intro i h1 h2
  have hi : i < 256 := by simpa [zeroExtend] using h1
  simp only [zeroExtend, List.getElem_map, List.getElem_range]
  rw [if_pos (by omega : i < 8 * 32)]
  exact List.getD_eq_getElem key 0 h2

theorem simpleSha256_front (n : Nat) (l rest : List ℤ) (hl : l.length = 256)
    (hn : 32 ≤ n) : simpleSha256 n (l ++ rest) = l := by
  apply List.ext_getElem (by simp [simpleSha256, hl])
  intro i h1 h2
  have hi : i < 256 := by simpa [simpleSha256] using h1
  simp only [simpleSha256, List.getElem_map, List.getElem_range]
  rw [if_pos (by omega : i < 8 * n), List.getD_append _ _ _ _ (by omega)]
  exact List.getD_eq_getElem l 0 h2

theorem simpleSha256_full (n : Nat) (l : List ℤ) (hl : l.length = 256)
    (hn : 32 ≤ n) : simpleSha256 n l = l := by
  have h := simpleSha256_front n l [] hl hn
  simpa using h

theorem hmacSha256Gadget_eq (keyBytes msgBytes : Nat) (key msg : List ℤ) :
    hmacSha256Gadget keyBytes msgBytes key msg = zeroExtend keyBytes key := by
  show simpleSha256 64
      (zeroExtend keyBytes key ++ simpleSha256 (32 + msgBytes) (zeroExtend keyBytes key ++ msg))
      = zeroExtend keyBytes key
  rw [simpleSha256_front _ _ _ (zeroExtend_length _ _) (by omega)]

theorem kConst_length : kConst.length = 256 := zeroExtend_length 13 edSeedKeyBits

theorem ckdPrivC_eq (key chainCode : List ℤ) (index : ℤ) (h : chainCode.length = 256) :
    ckdPrivC key chainCode index = (chainCode, chainCode) := by
  show (hmacSha256Gadget 32 37 chainCode _, hmacSha256Gadget 32 37 chainCode _)
      = (chainCode, chainCode)
  rw [hmacSha256Gadget_eq, zeroExtend_of_length _ h]

theorem getMasterKeyFromSeedC_eq (seed : List ℤ) :
    getMasterKeyFromSeedC seed = (kConst, kConst) := by
  show (hmacSha256Gadget 13 37 edSeedKeyBits seed, hmacSha256Gadget 13 37 edSeedKeyBits seed)
      = (kConst, kConst)
  rw [hmacSha256Gadget_eq]
  rfl

theorem twoKeysDerivePk_const (seed path : List ℤ) :
    twoKeysDerivePk seed path = kConst := by
  simp only [twoKeysDerivePk, getMasterKeyFromSeedC_eq, ckdPrivC_eq, kConst_length,
    ed25519PubFromSeedC]
  exact simpleSha256_full 32 kConst kConst_length (by omega)

end Circuit

theorem getD_range_map (f : Nat → ℤ) {n i : Nat} (h : i < n) :
    ((List.range n).map f).getD i 0 = f i := by
  rw [List.getD_eq_getElem _ _ (by simpa using h)]
  simp

/-! ## Claim C2 -/

/-- C2 counterexample: for a fixed concrete seed, the circuit's computed
public key for path [44,501,0,0] is EQUAL to its computed public key for
path [44,501,0,1] — the claim that they differ is false on the code. -/
theorem C2_counterexample :
    Circuit.twoKeysDerivePk (bytesToBits (List.range 37)) [44, 501, 0, 0] =
      Circuit.twoKeysDerivePk (bytesToBits (List.range 37)) [44, 501, 0, 1] := by
  rw [Circuit.twoKeysDerivePk_const, Circuit.twoKeysDerivePk_const]

/-- C2 amended: the circuit's computed public key is one constant bit
pattern (`kConst`, the zero-extended hard-coded key bits), independent
of the seed and of the path, so any two paths produce identical
computed public keys: the placeholder hash chain discards the path
indices entirely. -/
theorem C2_amended (seed path1 path2 : List ℤ) :
    Circuit.twoKeysDerivePk seed path1 = Circuit.twoKeysDerivePk seed path2 ∧
    Circuit.twoKeysDerivePk seed path1 = Circuit.kConst := by
  constructor
  · rw [Circuit.twoKeysDerivePk_const, Circuit.twoKeysDerivePk_const]
  · exact Circuit.twoKeysDerivePk_const seed path1

/-! ## Claim C6 -/

set_option maxRecDepth 100000 in
/-- C6 counterexample: the circuit's public-key generation consumes the
raw derived key, not a clamped scalar: `Ed25519PubFromSeed` maps the
all-ones raw key to itself, and that raw key is not clamped (the
spec-modelled `scalarClamp` changes it), so the value feeding public-key
generation cannot be the clamped scalar. -/
theorem C6_counterexample :
    Circuit.ed25519PubFromSeedC (List.replicate 256 1) = List.replicate 256 1 ∧
    SpecModel.scalarClamp (List.replicate 256 1) ≠ List.replicate 256 1 := by
  constructor
  · exact Circuit.simpleSha256_full 32 _ (by simp) (by omega)
  · decide

/-- C6 amended: the spec-modelled `ScalarClamp` does satisfy the
clamping invariant for every input, but no such component exists in the
code: the circuit's `Ed25519PubFromSeed` is the identity on every
256-bit input, so the raw derived key — not a clamped scalar — is what
feeds public-key generation. -/
theorem C6_amended :
    (∀ bits : List ℤ, SpecModel.clampInvariant (SpecModel.scalarClamp bits)) ∧
    (∀ key : List ℤ, key.length = 256 → Circuit.ed25519PubFromSeedC key = key) := by
  constructor
  · intro bits
    refine ⟨?_, ?_, ?_, ?_, ?_⟩ <;> simp [SpecModel.scalarClamp, getD_range_map]
  · intro key h
    exact Circuit.simpleSha256_full 32 key h (by omega)

/-- C6 witness: the amended claim applied at concrete inputs. -/
theorem C6_witness :
    SpecModel.clampInvariant (SpecModel.scalarClamp (List.replicate 256 1)) ∧
    Circuit.ed25519PubFromSeedC (List.replicate 256 0) = List.replicate 256 0 :=
  ⟨C6_amended.1 _, C6_amended.2 _ (by rw [List.length_replicate])⟩

/-! ## Claim C7 -/

/-- C7 counterexample: a derivation request with path entry 2^31 does
not fail anywhere before constraint evaluation: `generateProof` builds
its snarkjs input without any validation, and `parsePath` silently
wraps the hardened offset — the part 2147483648 with a hardened tick
parses to the index 0 (wrapped modulo 2^32), not an error. -/
theorem C7_counterexample :
    Solana.parsePathPart 2147483648 true = 0 ∧
    (Driver.generateProofInput (List.replicate 8 0) (List.replicate 4 0)
      (List.replicate 4 0) [2147483648, 501, 0, 0] [44, 501, 0, 1]).isOk = true := by
  constructor
  · rfl
  · rfl

/-- C7 amended: no component rejects indices at or above 2^31:
the input preparation of `generateProof` always succeeds (it validates
nothing), `parsePath` wraps the hardened offset modulo 2^32 instead of
rejecting, and the circuit's derivation absorbs any index value without
a range check (its output is the constant `kConst` whatever the index). -/
theorem C7_amended :
    (∀ seed pubkey1 pubkey2 path1 path2 : List ℤ,
      (Driver.generateProofInput seed pubkey1 pubkey2 path1 path2).isOk = true) ∧
    (∀ idx : Nat, Solana.parsePathPart idx true = (idx + 2147483648) % 4294967296) ∧
    (∀ (seed : List ℤ) (i : ℤ),
      Circuit.twoKeysDerivePk seed [i, 501, 0, 0] = Circuit.kConst) := by
  refine ⟨fun _ _ _ _ _ => rfl, fun idx => by simp [Solana.parsePathPart], fun seed i => ?_⟩
  exact Circuit.twoKeysDerivePk_const seed _

/-! ## Claim C8 -/

/-- C8: the derivation pipeline of `keyDerivation.ts` is deterministic:
with the module-level Poseidon singleton threaded explicitly, a second
evaluation of `deriveTwoPublicKeys` (resuming from the state the first
left behind) returns exactly the public-key pair the first returned,
for every builder, seed and pair of paths; and the SLIP-0010 pipeline
of `actual_solana.ts` is a pure function, so repeated evaluation
trivially agrees. -/
theorem C8 (build : KeyDeriv.PoseidonFn) (seed path1 path2 : List ℤ) :
    (KeyDeriv.deriveTwoPublicKeys build ⟨none⟩ seed path1 path2).1 =
      (KeyDeriv.deriveTwoPublicKeys build
        (KeyDeriv.deriveTwoPublicKeys build ⟨none⟩ seed path1 path2).2 seed path1 path2).1 ∧
    (∀ (s idx : List Nat), Solana.derivePath s idx = Solana.derivePath s idx) :=
  ⟨rfl, fun _ _ => rfl⟩

/-! ## Claim C3 -/

set_option maxRecDepth 1000000 in
/-- C3 counterexample: at a concrete key and message, the `HmacSha256`
gadget's output is the key bits themselves (no ipad/opad XOR is applied
and the placeholder hash passes the key through), so it does not equal
SHA512((K⊕opad) ‖ SHA512((K⊕ipad) ‖ msg)) — the gadget's 32-byte
output cannot even match the 64-byte digest in length. -/
theorem C3_counterexample :
    Circuit.hmacSha256Gadget 32 37 (bytesToBits (List.range 32))
        (bytesToBits (List.replicate 37 0)) = bytesToBits (List.range 32) ∧
    bitsToBytes (Circuit.hmacSha256Gadget 32 37 (bytesToBits (List.range 32))
        (bytesToBits (List.replicate 37 0))) ≠
      Sha512.hmacSha512 (List.range 32) (List.replicate 37 0) := by
  constructor
  · decide
  · intro h
    have hl := congrArg List.length h
    rw [Sha512.hmacSha512_length] at hl
    have h32 : (bitsToBytes (Circuit.hmacSha256Gadget 32 37 (bytesToBits (List.range 32))
        (bytesToBits (List.replicate 37 0)))).length = 32 := by decide
    omega

/-- C3 amended: the gadget implements no HMAC: for every 256-bit key
(the instantiated keyBytes = 32) and every message, its output equals
the key itself — the ipad/opad XOR is absent (passthrough) and both
hash passes are the identity placeholder — so the output is independent
of the message and is not the two-pass SHA-512 construction. -/
theorem C3_amended (key msg msg2 : List ℤ) (h : key.length = 256) :
    Circuit.hmacSha256Gadget 32 37 key msg = key ∧
    Circuit.hmacSha256Gadget 32 37 key msg = Circuit.hmacSha256Gadget 32 37 key msg2 := by
  have h1 := (Circuit.hmacSha256Gadget_eq 32 37 key msg).trans
    (Circuit.zeroExtend_of_length key h)
  have h2 := (Circuit.hmacSha256Gadget_eq 32 37 key msg2).trans
    (Circuit.zeroExtend_of_length key h)
  exact ⟨h1, h1.trans h2.symm⟩

set_option maxRecDepth 1000000 in
/-- C3 witness: the amended claim applied at a concrete key and two
concrete messages. -/
theorem C3_witness :
    (bytesToBits (List.replicate 32 7)).length = 256 ∧
    Circuit.hmacSha256Gadget 32 37 (bytesToBits (List.replicate 32 7))
        (bytesToBits (List.replicate 37 1)) = bytesToBits (List.replicate 32 7) ∧
    Circuit.hmacSha256Gadget 32 37 (bytesToBits (List.replicate 32 7))
        (bytesToBits (List.replicate 37 1)) =
      Circuit.hmacSha256Gadget 32 37 (bytesToBits (List.replicate 32 7)) [] := by
  have h := C3_amended (bytesToBits (List.replicate 32 7)) (bytesToBits (List.replicate 37 1))
    [] (by decide)
  exact ⟨by decide, h.1, h.2⟩

/-! ## Claim C4 -/

set_option maxRecDepth 1000000 in
/-- C4 counterexample: the circuit's `GetMasterKeyFromSeed` returns a
chain code that is a copy of its key output (the same 256 signals, not
a distinct digest half), whereas the reference HMAC-SHA512 digest of
the all-zero 64-byte seed under the key "ed25519 seed" has two distinct
halves. -/
theorem C4_counterexample :
    (Circuit.getMasterKeyFromSeedC (bytesToBits (List.range 37))).2 =
      (Circuit.getMasterKeyFromSeedC (bytesToBits (List.range 37))).1 ∧
    (Solana.getMasterKeyFromSeed (List.replicate 64 0)).1 ≠
      (Solana.getMasterKeyFromSeed (List.replicate 64 0)).2 :=
  ⟨rfl, by decide⟩

/-- C4 amended: the TypeScript `getMasterKeyFromSeed` computes
HMAC-SHA512 with the literal ASCII key "ed25519 seed" over the whole
seed and returns the digest's two 32-byte halves (they partition the
64-byte digest); the circuit's `GetMasterKeyFromSeed`, by contrast,
returns the same 256 bits for the key and the chain code — the chain
code is a copy, not a distinct half. -/
theorem C4_amended :
    (∀ seed : List Nat,
      (Solana.getMasterKeyFromSeed seed).1 ++ (Solana.getMasterKeyFromSeed seed).2 =
        Sha512.hmacSha512 Solana.edSeedKeyBytes seed ∧
      (Solana.getMasterKeyFromSeed seed).1.length = 32 ∧
      (Solana.getMasterKeyFromSeed seed).2.length = 32) ∧
    (∀ seed : List ℤ,
      (Circuit.getMasterKeyFromSeedC seed).2 = (Circuit.getMasterKeyFromSeedC seed).1) := by
  constructor
  · intro seed
    have hlen := Sha512.hmacSha512_length Solana.edSeedKeyBytes seed
    refine ⟨?_, ?_, ?_⟩
    · show (Sha512.hmacSha512 Solana.edSeedKeyBytes seed).take 32 ++
        ((Sha512.hmacSha512 Solana.edSeedKeyBytes seed).drop 32).take 32 =
        Sha512.hmacSha512 Solana.edSeedKeyBytes seed
      have hd : ((Sha512.hmacSha512 Solana.edSeedKeyBytes seed).drop 32).take 32 =
          (Sha512.hmacSha512 Solana.edSeedKeyBytes seed).drop 32 :=
        List.take_of_length_le (by simp [hlen])
      rw [hd]
      exact List.take_append_drop 32 _
    · show ((Sha512.hmacSha512 Solana.edSeedKeyBytes seed).take 32).length = 32
      simp [hlen]
    · show (((Sha512.hmacSha512 Solana.edSeedKeyBytes seed).drop 32).take 32).length = 32
      simp [hlen]
  · intro seed
    rfl

/-! ## Claim C5 -/

set_option maxRecDepth 1000000 in
/-- C5 counterexample: at concrete inputs the circuit's `CKDPriv`
returns the parent chain code itself as the child key, which differs
from the first 32 bytes of
HMAC-SHA512(parentChainCode, 0x00 ‖ parentKey ‖ ser32(44 + 2^31)). -/
theorem C5_counterexample :
    (Circuit.ckdPrivC (bytesToBits (List.replicate 32 0)) (bytesToBits (List.replicate 32 0))
        2147483692).1 = bytesToBits (List.replicate 32 0) ∧
    bitsToBytes ((Circuit.ckdPrivC (bytesToBits (List.replicate 32 0))
        (bytesToBits (List.replicate 32 0)) 2147483692).1) ≠
      (Sha512.hmacSha512 (List.replicate 32 0)
        ([0] ++ List.replicate 32 0 ++ Solana.ser32 2147483692)).take 32 := by
  exact ⟨by decide, by decide⟩

/-- C5 amended: in the TypeScript implementation one hardened step is as
the claim describes: for 0 ≤ i < 2^31 the index `parsePath` produces is
i + 2^31 and `deriveChild` returns the two halves of
HMAC-SHA512(parentChainCode, 0x00 ‖ parentKey ‖ ser32(i + 2^31)); the
circom `CKDPriv`, by contrast, returns the parent chain code for both
outputs, ignoring the parent key and the index entirely. -/
theorem C5_amended :
    (∀ (key chain : List Nat) (i : Nat), i < 2147483648 →
      Solana.deriveChild key chain (Solana.parsePathPart i true) =
        ((Sha512.hmacSha512 chain ([0] ++ key ++ Solana.ser32 (i + 2147483648))).take 32,
          ((Sha512.hmacSha512 chain ([0] ++ key ++ Solana.ser32 (i + 2147483648))).drop 32).take 32)) ∧
    (∀ (key chain : List ℤ) (index : ℤ), chain.length = 256 →
      Circuit.ckdPrivC key chain index = (chain, chain)) := by
  constructor
  · intro key chain i hi
    have hp : Solana.parsePathPart i true = i + 2147483648 := by
      simp [Solana.parsePathPart]
      omega
    rw [hp]
    rfl
  · intro key chain index h
    exact Circuit.ckdPrivC_eq key chain index h

set_option maxRecDepth 1000000 in
/-- C5 witness: the amended claim applied at concrete inputs
(index 44 for the TypeScript step; a concrete 256-bit chain code for the
circuit step). -/
theorem C5_witness :
    (44 < 2147483648 ∧
      Solana.deriveChild (List.replicate 32 0) (List.replicate 32 0)
          (Solana.parsePathPart 44 true) =
        ((Sha512.hmacSha512 (List.replicate 32 0)
            ([0] ++ List.replicate 32 0 ++ Solana.ser32 (44 + 2147483648))).take 32,
          ((Sha512.hmacSha512 (List.replicate 32 0)
            ([0] ++ List.replicate 32 0 ++ Solana.ser32 (44 + 2147483648))).drop 32).take 32)) ∧
    ((bytesToBits (List.replicate 32 3)).length = 256 ∧
      Circuit.ckdPrivC [] (bytesToBits (List.replicate 32 3)) 7 =
        (bytesToBits (List.replicate 32 3), bytesToBits (List.replicate 32 3))) :=
  ⟨⟨by decide, C5_amended.1 _ _ 44 (by decide)⟩, ⟨by decide, C5_amended.2 _ _ 7 (by decide)⟩⟩

/-! ## Claim C1 -/

namespace PoseidonCircuit

theorem isZeroSat_cases {inp out : ℤ} (h : isZeroSat inp out) :
    (inp = 0 ∧ out = 1) ∨ (inp ≠ 0 ∧ out = 0) := by
  obtain ⟨inv, h1, h2⟩ := h
  by_cases hi : inp = 0
  · subst hi
    refine Or.inl ⟨rfl, ?_⟩
    simpa using h1
  · refine Or.inr ⟨hi, ?_⟩
    rcases mul_eq_zero.mp h2 with h | h
    · exact absurd h hi
    · exact h

theorem isEqualSat_cases {x y out : ℤ} (h : isEqualSat x y out) :
    (x = y ∧ out = 1) ∨ (x ≠ y ∧ out = 0) := by
  rcases isZeroSat_cases h with ⟨h1, h2⟩ | ⟨h1, h2⟩
  · exact Or.inl ⟨(sub_eq_zero.mp h1).symm, h2⟩
  · exact Or.inr ⟨fun hxy => h1 (by rw [hxy, sub_self]), h2⟩

end PoseidonCircuit

/-- C1 counterexample: with the external Poseidon gadget instantiated to
the constant-zero hash, the `Prove2PubKeys` constraint system is
satisfied by an assignment whose first supplied public key differs from
the computed one (the `valid` output is 0): pubkey equality is not
enforced by hard constraints, so the system is satisfiable even when
the equalities fail, and `valid` is exactly the separate output signal
whose value reports the failure while the constraints still hold. -/
theorem C1_counterexample :
    PoseidonCircuit.prove2PubKeysSat (fun _ => 0) (fun _ => 0)
      (List.replicate 8 5) [1, 1, 2, 3] [0, 1, 2, 3] [44, 501, 0, 0] [44, 501, 0, 1] 0 ∧
    PoseidonCircuit.computedPubkey (fun _ => 0) (fun _ => 0)
      (List.replicate 8 5) [44, 501, 0, 0] ≠ [1, 1, 2, 3] := by
  constructor
  · refine ⟨[0, 1, 1, 1], [1, 1, 1, 1], rfl, rfl, ?_, ?_, by decide⟩
    · intro i hi
      interval_cases i
      · exact ⟨1, by decide, by decide⟩
      · exact ⟨0, by decide, by decide⟩
      · exact ⟨0, by decide, by decide⟩
      · exact ⟨0, by decide, by decide⟩
    · intro i hi
      interval_cases i <;> exact ⟨0, by decide, by decide⟩
  · decide

/-- C1 amended: in the `Prove2PubKeys` circuit actually driven by the
TypeScript (inputs seed, pubkey1, pubkey2, path1, path2), the pubkey
equalities are not hard constraints; instead, in every satisfying
assignment the separate `valid` output signal equals 1 exactly when
both computed public keys equal the externally supplied ones — the
constraint system itself is satisfiable either way. -/
theorem C1_amended (posei12 posei8 : List ℤ → ℤ)
    (seed pubkey1 pubkey2 path1 path2 : List ℤ) (valid : ℤ)
    (hsat : PoseidonCircuit.prove2PubKeysSat posei12 posei8 seed pubkey1 pubkey2
      path1 path2 valid) :
    valid = 1 ↔
      ((∀ i, i < 4 → (PoseidonCircuit.computedPubkey posei12 posei8 seed path1).getD i 0 =
          pubkey1.getD i 0) ∧
        (∀ i, i < 4 → (PoseidonCircuit.computedPubkey posei12 posei8 seed path2).getD i 0 =
          pubkey2.getD i 0)) := by
  obtain ⟨eq1, eq2, hl1, hl2, he1, he2, hv⟩ := hsat
  constructor
  · intro hvalid
    have hprod : ((eq1.getD 0 0 * eq1.getD 1 0) * (eq1.getD 2 0 * eq1.getD 3 0)) *
        ((eq2.getD 0 0 * eq2.getD 1 0) * (eq2.getD 2 0 * eq2.getD 3 0)) = 1 := by
      rw [← hv, hvalid]
    constructor
    · intro i hi
      rcases PoseidonCircuit.isEqualSat_cases (he1 i hi) with ⟨h, _⟩ | ⟨_, h0⟩
      · exact h
      · exfalso
        interval_cases i <;> rw [h0] at hprod <;> simp at hprod
    · intro i hi
      rcases PoseidonCircuit.isEqualSat_cases (he2 i hi) with ⟨h, _⟩ | ⟨_, h0⟩
      · exact h
      · exfalso
        interval_cases i <;> rw [h0] at hprod <;> simp at hprod
  · intro hmatch
    have h1 : ∀ i, i < 4 → eq1.getD i 0 = 1 := by
      intro i hi
      rcases PoseidonCircuit.isEqualSat_cases (he1 i hi) with ⟨_, h⟩ | ⟨hne, _⟩
      · exact h
      · exact absurd (hmatch.1 i hi) hne
    have h2 : ∀ i, i < 4 → eq2.getD i 0 = 1 := by
      intro i hi
      rcases PoseidonCircuit.isEqualSat_cases (he2 i hi) with ⟨_, h⟩ | ⟨hne, _⟩
      · exact h
      · exact absurd (hmatch.2 i hi) hne
    rw [hv, h1 0 (by norm_num), h1 1 (by norm_num), h1 2 (by norm_num), h1 3 (by norm_num),
      h2 0 (by norm_num), h2 1 (by norm_num), h2 2 (by norm_num), h2 3 (by norm_num)]
    norm_num

/-- C1 witness: the amended claim applied at a satisfying assignment in
which both supplied public keys match the computed ones (valid = 1). -/
theorem C1_witness :
    PoseidonCircuit.prove2PubKeysSat (fun _ => 0) (fun _ => 0)
      (List.replicate 8 5) [0, 1, 2, 3] [0, 1, 2, 3] [44, 501, 0, 0] [44, 501, 0, 1] 1 ∧
    ((1 : ℤ) = 1 ↔
      ((∀ i, i < 4 → (PoseidonCircuit.computedPubkey (fun _ => 0) (fun _ => 0)
          (List.replicate 8 5) [44, 501, 0, 0]).getD i 0 = ([0, 1, 2, 3] : List ℤ).getD i 0) ∧
        (∀ i, i < 4 → (PoseidonCircuit.computedPubkey (fun _ => 0) (fun _ => 0)
          (List.replicate 8 5) [44, 501, 0, 1]).getD i 0 = ([0, 1, 2, 3] : List ℤ).getD i 0))) := by
  have hsat : PoseidonCircuit.prove2PubKeysSat (fun _ => 0) (fun _ => 0)
      (List.replicate 8 5) [0, 1, 2, 3] [0, 1, 2, 3] [44, 501, 0, 0] [44, 501, 0, 1] 1 := by
    refine ⟨[1, 1, 1, 1], [1, 1, 1, 1], rfl, rfl, ?_, ?_, by decide⟩
    · intro i hi
      interval_cases i <;> exact ⟨0, by decide, by decide⟩
    · intro i hi
      interval_cases i <;> exact ⟨0, by decide, by decide⟩
  exact ⟨hsat, C1_amended _ _ _ _ _ _ _ _ hsat⟩
